import Mathlib

/-!
Verification development for the stride shoe-recommendation pipeline.

The scoring engine, extraction pipeline and weight optimizer are specified as
Python/SQL pseudocode in `src/backend/docs/SCRAPER_DATA_SCHEMA.md`; the
definitions below are a shallow embedding of that code.  Machine floats are
modelled as exact rationals, Python `None` as `Option`, Python dicts as
association lists (insertion order preserved, as in Python).  Functions that
the document references but never defines (`calculate_terrain_match`,
`calculate_arch_match`, `calculate_cushion_match`, `calculate_priority_match`,
`calculate_distance_match`, `calculate_position_match`,
`calculate_budget_match`, `calculate_history_match`) are passed in as explicit
function parameters, mirroring their call sites; components the document does
define (`calculate_width_match`, `calculate_pronation_match`,
`calculate_issue_compatibility`, the sentiment read) are embedded directly.
Pieces of the pipeline that the repository only references or describes
(the ranking assembly, the raw-review insert, the weight-promotion step) are
modelled from the specification; each such definition carries a doc comment
beginning `Modelled from the spec`.
-/

namespace Stride

/-- Dictionary lookup with a default, mirroring Python's `dict.get(key, default)`
on an association list. -/
def dictGetD {α β : Type} [BEq α] (m : List (α × β)) (k : α) (d : β) : β :=
  match m.find? (fun p => p.1 == k) with
  | some p => p.2
  | none => d

/-- Fit-profile columns read by the scoring engine (`shoe_fit_profiles` table,
unused columns omitted).  All are nullable in the schema. -/
structure FitProfile where
  width_runs : Option String
  avoid_if : Option (List String)
  works_well_for : Option (List String)
  overall_sentiment : Option ℚ
deriving DecidableEq

/-- Running-specific attributes (`running_shoe_attributes` table, the columns
the scorer reads). -/
structure RunningAttributes where
  terrain : Option String
  subcategory : Option String
deriving DecidableEq

/-- A catalog product as consumed by the scorer. -/
structure Shoe where
  id : String
  category : String
  running_attributes : RunningAttributes
  fit_profile : FitProfile
  current_price_min : Option ℚ
deriving DecidableEq

/-- Foot geometry fields of the user profile. -/
structure FootProfile where
  width : Option String
  pronation : Option String
deriving DecidableEq

/-- Optional prior-shoe history entry supplied with a recommendation request. -/
structure PreviousShoe where
  shoe_id : String
  liked : Bool
  notes : String
deriving DecidableEq

/-- The user profile derived from quiz answers. -/
structure UserProfile where
  category : String
  foot : FootProfile
  foot_issues : List String
  preferences : List String
  priorities : List String
  distances : List String
  position : Option String
  budget : Option ℚ
  previous_shoes : List PreviousShoe
deriving DecidableEq

/-- A weight vector: named mapping from factor name to weight
(Python dict, modelled as an association list in insertion order). -/
abbrev Weights := List (String × ℚ)

/-- The component scoring functions that `calculate_match_score` calls but the
source document never defines.  Each field's signature mirrors the
corresponding call site. -/
structure ComponentFns where
  terrain : Shoe → UserProfile → ℚ
  arch : Shoe → FootProfile → ℚ
  cushion : Shoe → List String → ℚ
  priorities : Shoe → List String → ℚ
  distance : Shoe → List String → ℚ
  position : Shoe → Option String → ℚ
  budget : Option ℚ → Option ℚ → ℚ
  history : Shoe → List PreviousShoe → ℚ

/-- The `width_map` dictionary of `calculate_width_match`
(keys are `(shoe_width, user_width)`). -/
def width_map : List ((String × String) × ℚ) :=
  [(("narrow", "narrow"), 1),
   (("narrow", "standard"), 1/2),
   (("narrow", "wide"), 1/10),
   (("true", "narrow"), 7/10),
   (("true", "standard"), 1),
   (("true", "wide"), 7/10),
   (("wide", "narrow"), 1/10),
   (("wide", "standard"), 3/5),
   (("wide", "wide"), 1)]

/-- Embeds `calculate_width_match` (SCRAPER_DATA_SCHEMA.md lines 1473-1492):
missing shoe width defaults to `'true'`, missing user width to `'standard'`,
lookups outside the table return `0.5`. -/
def calculate_width_match (fit_profile : FitProfile) (foot : FootProfile) : ℚ :=
  let shoe_width := fit_profile.width_runs.getD "true"
  let user_width := foot.width.getD "standard"
  dictGetD width_map (shoe_width, user_width) (1/2)

/-- The `support_map` dictionary of `calculate_pronation_match`
(keys are `(shoe_subcategory, user_pronation)`; the subcategory column is
nullable, so the key's first component is an `Option`). -/
def support_map : List ((Option String × String) × ℚ) :=
  [((some "neutral", "neutral"), 1),
   ((some "neutral", "overpronation"), 3/10),
   ((some "neutral", "underpronation"), 4/5),
   ((some "stability", "neutral"), 7/10),
   ((some "stability", "overpronation"), 1),
   ((some "stability", "underpronation"), 2/5),
   ((some "motion_control", "neutral"), 2/5),
   ((some "motion_control", "overpronation"), 9/10),
   ((some "motion_control", "underpronation"), 1/5)]

/-- Embeds `calculate_pronation_match` (lines 1495-1518): returns a neutral
`1.0` for non-running categories, else a table lookup defaulting to `0.5`. -/
def calculate_pronation_match (shoe : Shoe) (foot : FootProfile) : ℚ :=
  if shoe.category ≠ "running" then 1
  else
    let user_pronation := foot.pronation.getD "neutral"
    dictGetD support_map (shoe.running_attributes.subcategory, user_pronation) (1/2)

/-- The `fit.avoid_if or []` read. -/
def avoid_list (shoe : Shoe) : List String :=
  shoe.fit_profile.avoid_if.getD []

/-- The `fit.works_well_for or []` read. -/
def works_list (shoe : Shoe) : List String :=
  shoe.fit_profile.works_well_for.getD []

/-- Embeds `calculate_issue_compatibility` (lines 1521-1538): multiplicative
running score over the stated issues, `* 0.1` per `avoid_if` hit, `* 1.2` per
`works_well_for` hit (the `elif` branch), capped at `1.0`; `1.0` when no
issues are stated. -/
def calculate_issue_compatibility (shoe : Shoe) (issues : List String) : ℚ :=
  if issues = [] then 1
  else
    let score := issues.foldl
      (fun s issue =>
        if issue ∈ avoid_list shoe then s * (1/10)
        else if issue ∈ works_list shoe then s * (6/5)
        else s) 1
    min score 1

/-- The multiplier a single stated issue contributes inside
`calculate_issue_compatibility` (one iteration of its loop). -/
def issue_multiplier (A W : List String) (i : String) : ℚ :=
  if i ∈ A then 1/10 else if i ∈ W then 6/5 else 1

/-- The un-clamped multiplicative issue score: product of the per-issue
multipliers. -/
def raw_issue_score (shoe : Shoe) (issues : List String) : ℚ :=
  (issues.map (issue_multiplier (avoid_list shoe) (works_list shoe))).prod

/-- Number of stated issues that hit the product's `avoid_if` list
(with multiplicity). -/
def avoid_hits (shoe : Shoe) (issues : List String) : ℕ :=
  (issues.filter (fun i => decide (i ∈ avoid_list shoe))).length

/-- Number of stated issues that hit `works_well_for` without hitting
`avoid_if` (the `elif` branch, with multiplicity). -/
def works_hits (shoe : Shoe) (issues : List String) : ℕ :=
  (issues.filter
    (fun i => decide (i ∉ avoid_list shoe ∧ i ∈ works_list shoe))).length

/-- The `shoe.fit_profile.overall_sentiment or 0.5` read; Python's `or` treats
both `None` and `0.0` as falsy. -/
def sentiment_score (s : Option ℚ) : ℚ :=
  match s with
  | none => 1/2
  | some v => if v = 0 then 1/2 else v

/-- The `scores` dictionary built by `calculate_match_score` (lines 1399-1435)
for a candidate that survived the hard filters, in insertion order;
`terrain_score` is the already-computed terrain factor, and the `history` key
is only present when `previous_shoes` is non-empty (Python truthiness). -/
def factor_scores (C : ComponentFns) (shoe : Shoe) (up : UserProfile)
    (terrain_score : ℚ) : List (String × ℚ) :=
  [("terrain", terrain_score),
   ("width", calculate_width_match shoe.fit_profile up.foot),
   ("arch", C.arch shoe up.foot),
   ("pronation", calculate_pronation_match shoe up.foot),
   ("issues", calculate_issue_compatibility shoe up.foot_issues),
   ("cushion", C.cushion shoe up.preferences),
   ("priorities", C.priorities shoe up.priorities),
   ("distance", C.distance shoe up.distances),
   ("position", C.position shoe up.position),
   ("budget", C.budget shoe.current_price_min up.budget)]
  ++ (if up.previous_shoes ≠ [] then
        [("history", C.history shoe up.previous_shoes)] else [])
  ++ [("sentiment", sentiment_score shoe.fit_profile.overall_sentiment)]

/-- The weighted combination of lines 1438-1441:
`sum(scores.get(key, 0.5) * weights[key] for key in weights) / sum(weights.values())`
with `d` the default used for keys absent from `scores`. -/
def weighted_mean_over (scores : List (String × ℚ)) (d : ℚ) (weights : Weights) : ℚ :=
  (weights.map (fun kw => dictGetD scores kw.1 d * kw.2)).sum
    / (weights.map (fun kw => kw.2)).sum

/-- Embeds `calculate_match_score` (lines 1393-1443): hard category filter,
hard terrain filter, then the weighted mean of the factor scores with a `0.5`
default for keys missing from the score dictionary. -/
def calculate_match_score (C : ComponentFns) (shoe : Shoe) (up : UserProfile)
    (weights : Weights) : ℚ :=
  if shoe.category ≠ up.category then 0
  else
    let terrain_score := C.terrain shoe up
    if terrain_score = 0 then 0
    else weighted_mean_over (factor_scores C shoe up terrain_score) (1/2) weights

/-- Modelled from the spec sentence behind C2, for refinement comparison only:
the final score as the claim states it, in which a factor absent from the
computed score dictionary (not applicable to the request) contributes a
neutral `1.0` instead of the code's `0.5` default. -/
def calculate_match_score_spec_neutral (C : ComponentFns) (shoe : Shoe)
    (up : UserProfile) (weights : Weights) : ℚ :=
  if shoe.category ≠ up.category then 0
  else
    let terrain_score := C.terrain shoe up
    if terrain_score = 0 then 0
    else weighted_mean_over (factor_scores C shoe up terrain_score) 1 weights

/-- The `DEFAULT_WEIGHTS` constant (lines 1449-1467). -/
def DEFAULT_WEIGHTS : Weights :=
  [("terrain", 2),
   ("pronation", 9/5),
   ("issues", 9/5),
   ("width", 3/2),
   ("arch", 13/10),
   ("priorities", 13/10),
   ("cushion", 6/5),
   ("distance", 1),
   ("position", 1),
   ("budget", 1),
   ("history", 4/5),
   ("sentiment", 1/2)]

/-- Character-list comparison used for the identifier tie-break: lexicographic
on the character codes, by structural recursion (so that it evaluates by
`decide`). -/
def chars_le : List Char → List Char → Bool
  | [], _ => true
  | _ :: _, [] => false
  | a :: as, b :: bs =>
    if a.toNat < b.toNat then true
    else if b.toNat < a.toNat then false
    else chars_le as bs

/-- Identifier comparison: lexicographic order on the underlying characters. -/
def id_le (a b : String) : Prop :=
  chars_le a.data b.data = true

instance (a b : String) : Decidable (id_le a b) := by
  unfold id_le
  infer_instance

/-- Lexicographic comparison on a `(ℚ, ℚ, String)` key triple: strictly
smaller first component wins, then the second, then the identifier order. -/
def lexTriple (x y : ℚ × ℚ × String) : Prop :=
  x.1 < y.1 ∨ (x.1 = y.1 ∧ (x.2.1 < y.2.1 ∨ (x.2.1 = y.2.1 ∧ id_le x.2.2 y.2.2)))

instance : DecidableRel lexTriple := by
  intro x y
  unfold lexTriple
  infer_instance

/-- Ranking sort key of an entry `(shoe, score)`: score descending, then
sentiment descending, then product identifier ascending. -/
def rank_key (e : Shoe × ℚ) : ℚ × ℚ × String :=
  (-e.2, -(sentiment_score e.1.fit_profile.overall_sentiment), e.1.id)

/-- The ranking order: `rank_le a b` holds when entry `a` may appear before
entry `b`. -/
def rank_le (a b : Shoe × ℚ) : Prop :=
  lexTriple (rank_key a) (rank_key b)

instance : DecidableRel rank_le := by
  intro a b
  unfold rank_le
  infer_instance

/-- Modelled from the spec: the ranking assembly (`generate_ranking`, called
at SCRAPER_DATA_SCHEMA.md line 2351 and described only as "scores each shoe
against the user's profile and returns the top matches") is not defined in
src/.  Per spec §4.1, a product failing the hard category filter or whose
terrain factor is exactly 0 is excluded outright and never enters ranking;
surviving candidates are scored with `calculate_match_score` and sorted into a
deterministic strict order, ties broken by the documented secondary key
(sentiment score, then product identifier). -/
def generate_ranking (C : ComponentFns) (shoes : List Shoe) (up : UserProfile)
    (weights : Weights) : List (Shoe × ℚ) :=
  let survivors := shoes.filter
    (fun s => decide (s.category = up.category ∧ C.terrain s up ≠ 0))
  let scored := survivors.map (fun s => (s, calculate_match_score C s up weights))
  scored.insertionSort rank_le

/-- The valid clamp range applied to every optimized weight
(`update_from_examples`, line 2339: `max(0.1, min(3.0, w))`). -/
def weights_in_clamp_range (w : Weights) : Prop :=
  ∀ p ∈ w, (1:ℚ)/10 ≤ p.2 ∧ p.2 ≤ 3

/-- Concrete component functions (all constantly `1`) used for witnesses and
counterexamples. -/
def constC : ComponentFns :=
  ⟨fun _ _ => 1, fun _ _ => 1, fun _ _ => 1, fun _ _ => 1, fun _ _ => 1,
    fun _ _ => 1, fun _ _ => 1, fun _ _ => 1⟩

/-- Concrete running shoe used for witnesses and counterexamples. -/
def cxShoe : Shoe :=
  ⟨"ghost15", "running", ⟨some "road", some "neutral"⟩,
    ⟨some "true", none, none, some (4/5)⟩, some 120⟩

/-- Concrete user profile with no prior-shoe history, used for witnesses and
counterexamples. -/
def cxUp : UserProfile :=
  ⟨"running", ⟨some "standard", some "neutral"⟩, [], [], [], [], none, none, []⟩

/-- A raw scraped review (the `RawReview` dataclass, lines 1960-1973). -/
structure RawReview where
  source : String
  source_review_id : String
  source_url : String
  reviewer_name : Option String
  rating : Option ℚ
  title : Option String
  body : String
  review_date : Option String
  reviewer_foot_width : Option String
  reviewer_arch_type : Option String
  reviewer_size_purchased : Option String
  reviewer_typical_size : Option String
deriving DecidableEq

/-- The deduplication key of a stored review row: the
`UNIQUE(shoe_id, source, source_review_id)` triple (line 911). -/
def review_key (shoe_id : String) (r : RawReview) : String × String × String :=
  (shoe_id, r.source, r.source_review_id)

/-- The review store: `(shoe_id, review)` rows in insertion order. -/
abbrev ReviewStore := List (String × RawReview)

/-- Whether a row with the given dedup triple is already stored. -/
def has_review (store : ReviewStore) (k : String × String × String) : Bool :=
  store.any (fun e => review_key e.1 e.2 == k)

/-- Modelled from the spec: `store_reviews` is called by the scraping task
(line 2174) but not defined in src/.  Per the spec (§4.2) and the uniqueness
constraint of line 911, a review whose `(shoe_id, source, source_review_id)`
triple is already stored is silently skipped — a no-op, not an error —
otherwise the row is appended. -/
def insert_review (store : ReviewStore) (shoe_id : String) (r : RawReview) :
    ReviewStore :=
  if has_review store (review_key shoe_id r) then store
  else store ++ [(shoe_id, r)]

/-- Storing a batch of reviews: inserting each in order. -/
def store_reviews (store : ReviewStore) (shoe_id : String)
    (reviews : List RawReview) : ReviewStore :=
  reviews.foldl (fun st r => insert_review st shoe_id r) store

/-- The parsed JSON document returned by the extraction call, with the fields
of the extraction prompt's schema (lines 2092-2108); every field may be
`null`. -/
structure ExtractedProfile where
  size_runs : Option String
  size_offset : Option ℚ
  width_runs : Option String
  toe_box_room : Option String
  heel_fit : Option String
  arch_support : Option String
  break_in_period : Option String
  break_in_miles : Option ℤ
  durability_rating : Option String
  expected_miles_min : Option ℤ
  expected_miles_max : Option ℤ
  common_complaints : Option (List String)
  works_well_for : Option (List String)
  avoid_if : Option (List String)
  overall_sentiment : Option ℚ
deriving DecidableEq

/-- Validity of one nullable field (`null` is always allowed: "If information
isn't available, use null"). -/
def opt_valid {α : Type} (p : α → Bool) : Option α → Bool
  | none => true
  | some v => p v

/-- Membership of a string in its enumerated value set, as a boolean. -/
def str_in (s : String) (l : List String) : Bool :=
  l.any (fun v => s == v)

/-- The FitProfile schema checks that claim C3 speaks of: every enumerated
field inside its fixed value set (per the extraction prompt, lines 2092-2108,
and the `shoe_fit_profiles` column comments), the numeric fields inside their
documented ranges.  The repository's extraction path performs no such
validation; the predicate is stated here to express the claim. -/
def fit_profile_schema_valid (r : ExtractedProfile) : Bool :=
  opt_valid (fun s => str_in s ["small", "true", "large"]) r.size_runs &&
  opt_valid (fun q => decide (-1 ≤ q ∧ q ≤ 1)) r.size_offset &&
  opt_valid (fun s => str_in s ["narrow", "true", "wide"]) r.width_runs &&
  opt_valid (fun s => str_in s ["cramped", "snug", "roomy", "spacious"])
    r.toe_box_room &&
  opt_valid (fun s => str_in s ["loose", "secure", "tight"]) r.heel_fit &&
  opt_valid (fun s => str_in s ["flat", "neutral", "high"]) r.arch_support &&
  opt_valid (fun s => str_in s ["none", "short", "moderate", "long"])
    r.break_in_period &&
  opt_valid (fun s => str_in s ["poor", "average", "good", "excellent"])
    r.durability_rating &&
  opt_valid (fun q => decide (0 ≤ q ∧ q ≤ 1)) r.overall_sentiment

/-- A stored fit-profile row as written by the extraction task: the parsed
response plus the `review_count` and `extraction_model` fields the extractor
adds, and the row's `needs_review` flag. -/
structure StoredFitRow where
  profile : ExtractedProfile
  review_count : ℕ
  extraction_model : String
  needs_review : Bool
deriving DecidableEq

/-- Embeds `ReviewFitExtractor.extract_fit_profile` (lines 2116-2142): the
generative call's parsed JSON output (`response`) gets `review_count` and
`extraction_model` added; no schema validation is performed. -/
def extractor_result (reviews : List RawReview) (response : ExtractedProfile) :
    ExtractedProfile × ℕ × String :=
  (response, reviews.length, "claude-sonnet-4-20250514")

/-- The fit-profile store, keyed by shoe id. -/
def FitProfileStore : Type := String → Option StoredFitRow

/-- The `update_fit_profile(shoe_id, fit_profile, needs_review=True)` write
(line 2198): overwrites the row for the shoe wholesale. -/
def update_fit_profile (store : FitProfileStore) (shoe_id : String)
    (p : ExtractedProfile × ℕ × String) (flag : Bool) : FitProfileStore :=
  fun k => if k = shoe_id then some ⟨p.1, p.2.1, p.2.2, flag⟩ else store k

/-- Embeds the `extract_fit_profile` Celery task (lines 2186-2200): with no
stored reviews it does nothing; otherwise it runs the extractor on the parsed
response and stores the result wholesale with `needs_review = true`. -/
def extract_fit_profile_task (store : FitProfileStore) (shoe_id : String)
    (reviews : List RawReview) (response : ExtractedProfile) :
    FitProfileStore :=
  if reviews = [] then store
  else update_fit_profile store shoe_id (extractor_result reviews response) true

/-- Quiz answers as a string-keyed record. -/
abbrev QuizAnswers := List (String × String)

/-- A labeled training example (the `TrainingExample` dataclass, lines
2270-2287; the optional free-form feedback dict is omitted). -/
structure TrainingExample where
  quiz_answers : QuizAnswers
  category : String
  ideal_ranking : List String
  original_ranking : List String
  source : String
  confidence : ℚ
deriving DecidableEq

/-- Embeds `WeightOptimizer.evaluate` (lines 2343-2357): the mean ranking
metric over the held-out examples.  `calculate_ndcg` and the quiz-answer
ranker it calls are not defined in src/ and are passed as parameters. -/
def optimizer_evaluate (ndcg : List String → List String → ℚ)
    (ranker : QuizAnswers → Weights → List String) (w : Weights)
    (held_out : List TrainingExample) : ℚ :=
  let scores := held_out.map
    (fun e => ndcg (ranker e.quiz_answers w) e.ideal_ranking)
  scores.sum / (scores.length : ℚ)

/-- Modelled from the spec: the promotion decision ("Evaluate on held-out
set / Update if improved", lines 2252-2264 of the document; spec §4.5) is not
implemented in src/.  Per the spec, the proposed vector becomes active only
if its held-out score is not worse than the active vector's score by more
than the configured tolerance; otherwise the prior vector remains active. -/
def promote_weights (ndcg : List String → List String → ℚ)
    (ranker : QuizAnswers → Weights → List String)
    (held_out : List TrainingExample) (tol : ℚ)
    (active proposed : Weights) : Weights :=
  if optimizer_evaluate ndcg ranker proposed held_out
      < optimizer_evaluate ndcg ranker active held_out - tol
  then active
  else proposed

/-- A schema-valid prior profile used in the extraction scenario. -/
def cxPriorProfile : ExtractedProfile :=
  ⟨some "true", some 0, some "wide", some "roomy", some "secure",
    some "neutral", some "none", some 10, some "good", some 300, some 500,
    some [], some ["wide_feet"], some [], some (4/5)⟩

/-- The stored row holding the prior profile. -/
def cxPriorRow : StoredFitRow :=
  ⟨cxPriorProfile, 12, "claude-sonnet-4-20250514", false⟩

/-- A parsed extraction response whose `width_runs` lies outside its
enumerated set. -/
def cxBadResponse : ExtractedProfile :=
  ⟨some "true", some 0, some "extra_wide", some "roomy", some "secure",
    some "neutral", some "none", some 10, some "good", some 300, some 500,
    some [], some ["wide_feet"], some [], some (4/5)⟩

/-- A fit-profile store holding the prior row for shoe `"shoe1"`. -/
def cxFitStore : FitProfileStore :=
  fun k => if k = "shoe1" then some cxPriorRow else none

/-- One stored raw review for the scenario shoe. -/
def cxReview : RawReview :=
  ⟨"running_warehouse", "rw-1", "url", none, none, none, "Great shoe", none,
    none, none, none, none⟩

/-- A ranking metric for the optimizer witness: `1` on an exact match of the
ideal ranking, else `0`. -/
def cxNdcg : List String → List String → ℚ :=
  fun a b => if a = b then 1 else 0

/-- A ranker for the optimizer witness whose output depends on the weights. -/
def cxRanker : QuizAnswers → Weights → List String :=
  fun _ w => if w = [("terrain", (1:ℚ))] then ["good"] else ["bad"]

/-- A held-out example for the optimizer witness. -/
def cxExample : TrainingExample :=
  ⟨[], "running", ["good"], ["good"], "admin_correction", 1⟩

/-- C5 tie scenario: the flagged product, listing the stated condition `"c"`
in `avoid_if`; thirteen stated conditions hit the shared `works_well_for`. -/
def cx5Flag : Shoe :=
  ⟨"a", "running", ⟨some "road", some "neutral"⟩,
    ⟨some "true", some ["c"], some ["w"], some (4/5)⟩, some 100⟩

/-- C5 tie scenario: the otherwise-identical unflagged product. -/
def cx5Unflag : Shoe :=
  ⟨"b", "running", ⟨some "road", some "neutral"⟩,
    ⟨some "true", some [], some ["w"], some (4/5)⟩, some 100⟩

/-- C5 tie scenario: a user stating `"c"` once and `"w"` thirteen times. -/
def cx5Up : UserProfile :=
  ⟨"running", ⟨some "standard", some "neutral"⟩,
    ["c", "w", "w", "w", "w", "w", "w", "w", "w", "w", "w", "w", "w", "w"],
    [], [], [], none, none, []⟩

/-- C5 witness scenario: flagged product with the stated condition in
`avoid_if` and no bonus hits (raw issue score `0.1`, below the clamp). -/
def cw5Flag : Shoe :=
  ⟨"a", "running", ⟨some "road", some "neutral"⟩,
    ⟨some "true", some ["c"], none, some (4/5)⟩, some 100⟩

/-- C5 witness scenario: the otherwise-identical unflagged product. -/
def cw5Unflag : Shoe :=
  ⟨"b", "running", ⟨some "road", some "neutral"⟩,
    ⟨some "true", some [], none, some (4/5)⟩, some 100⟩

/-- C5 witness scenario: a user stating the single condition `"c"`. -/
def cw5Up : UserProfile :=
  ⟨"running", ⟨some "standard", some "neutral"⟩, ["c"], [], [], [], none,
    none, []⟩

end Stride

namespace Stride

/-- Unfolding lemma for `==` on pairs, for concrete evaluation by `simp`. -/
theorem prod_beq_def {α β : Type} [BEq α] [BEq β] (a c : α) (b d : β) :
    ((a, b) == (c, d)) = (a == c && b == d) := rfl

theorem dictGetD_default_or_mem {α β : Type} [BEq α] (m : List (α × β))
    (k : α) (d : β) :
    dictGetD m k d = d ∨ ∃ p ∈ m, dictGetD m k d = p.2 := by
  unfold dictGetD
  cases h : m.find? (fun p => p.1 == k) with
  | none => exact Or.inl rfl
  | some p => exact Or.inr ⟨p, List.mem_of_find?_eq_some h, rfl⟩

theorem dictGetD_not_mem_keys {α β : Type} [BEq α] [LawfulBEq α]
    (m : List (α × β)) (k : α) (d : β) (h : k ∉ m.map Prod.fst) :
    dictGetD m k d = d := by
  unfold dictGetD
  have hn : m.find? (fun p => p.1 == k) = none := by
    rw [List.find?_eq_none]
    intro x hx hpk
    exact h (List.mem_map.mpr ⟨x, hx, eq_of_beq hpk⟩)
  rw [hn]

theorem chars_le_total : ∀ as bs : List Char,
    chars_le as bs = true ∨ chars_le bs as = true
  | [], _ => Or.inl rfl
  | _ :: _, [] => Or.inr rfl
  | a :: as, b :: bs => by
    rcases Nat.lt_trichotomy a.toNat b.toNat with h | h | h
    · exact Or.inl (by simp [chars_le, h])
    · rcases chars_le_total as bs with h' | h'
      · exact Or.inl (by simp [chars_le, h, h'])
      · exact Or.inr (by simp [chars_le, h, h'])
    · exact Or.inr (by simp [chars_le, h])

theorem chars_le_trans : ∀ as bs cs : List Char,
    chars_le as bs = true → chars_le bs cs = true → chars_le as cs = true
  | [], _, _, _, _ => rfl
  | _ :: _, [], _, h, _ => by simp [chars_le] at h
  | _ :: _, _ :: _, [], _, h => by simp [chars_le] at h
  | a :: as, b :: bs, c :: cs, h1, h2 => by
    simp only [chars_le] at h1 h2 ⊢
    split_ifs at h1 h2 ⊢ <;>
      first
      | rfl
      | (exact absurd h1 Bool.false_ne_true)
      | (exact absurd h2 Bool.false_ne_true)
      | (exfalso; omega)
      | (exact chars_le_trans as bs cs h1 h2)

/-- Identifier comparison is total. -/
theorem id_le_total (a b : String) : id_le a b ∨ id_le b a :=
  chars_le_total a.data b.data

/-- Identifier comparison is transitive. -/
theorem id_le_trans {a b c : String} (h1 : id_le a b) (h2 : id_le b c) :
    id_le a c :=
  chars_le_trans a.data b.data c.data h1 h2

theorem lexTriple_total (x y : ℚ × ℚ × String) : lexTriple x y ∨ lexTriple y x := by
  unfold lexTriple
  rcases lt_trichotomy x.1 y.1 with h1 | h1 | h1
  · exact Or.inl (Or.inl h1)
  · rcases lt_trichotomy x.2.1 y.2.1 with h2 | h2 | h2
    · exact Or.inl (Or.inr ⟨h1, Or.inl h2⟩)
    · rcases id_le_total x.2.2 y.2.2 with h3 | h3
      · exact Or.inl (Or.inr ⟨h1, Or.inr ⟨h2, h3⟩⟩)
      · exact Or.inr (Or.inr ⟨h1.symm, Or.inr ⟨h2.symm, h3⟩⟩)
    · exact Or.inr (Or.inr ⟨h1.symm, Or.inl h2⟩)
  · exact Or.inr (Or.inl h1)

theorem lexTriple_trans (x y z : ℚ × ℚ × String) :
    lexTriple x y → lexTriple y z → lexTriple x z := by
  rintro (h1 | ⟨h1, h2 | ⟨h2, h3⟩⟩) (g1 | ⟨g1, g2 | ⟨g2, g3⟩⟩)
  · exact Or.inl (lt_trans h1 g1)
  · exact Or.inl (g1 ▸ h1)
  · exact Or.inl (g1 ▸ h1)
  · exact Or.inl (h1 ▸ g1)
  · exact Or.inr ⟨h1.trans g1, Or.inl (lt_trans h2 g2)⟩
  · exact Or.inr ⟨h1.trans g1, Or.inl (g2 ▸ h2)⟩
  · exact Or.inl (h1 ▸ g1)
  · exact Or.inr ⟨h1.trans g1, Or.inl (h2 ▸ g2)⟩
  · exact Or.inr ⟨h1.trans g1, Or.inr ⟨h2.trans g2, id_le_trans h3 g3⟩⟩

/-- Total-order structure of the ranking relation, passed explicitly to the
sortedness lemma. -/
theorem rank_le_isTotal : IsTotal (Shoe × ℚ) rank_le :=
  ⟨fun a b => lexTriple_total (rank_key a) (rank_key b)⟩

/-- Transitivity structure of the ranking relation. -/
theorem rank_le_isTrans : IsTrans (Shoe × ℚ) rank_le :=
  ⟨fun a b c => lexTriple_trans (rank_key a) (rank_key b) (rank_key c)⟩

/-- An entry allowed earlier in the ranking order has the larger score. -/
theorem rank_le_score_ge {a b : Shoe × ℚ} (h : rank_le a b) : b.2 ≤ a.2 := by
  rcases h with h1 | ⟨h1, _⟩
  · have : -a.2 < -b.2 := h1
    linarith
  · have : -a.2 = -b.2 := h1
    linarith

theorem mem_generate_ranking {C : ComponentFns} {shoes : List Shoe}
    {up : UserProfile} {weights : Weights} {e : Shoe × ℚ} :
    e ∈ generate_ranking C shoes up weights ↔
      e.1 ∈ shoes ∧ e.1.category = up.category ∧ C.terrain e.1 up ≠ 0 ∧
        e.2 = calculate_match_score C e.1 up weights := by
  unfold generate_ranking
  simp only [List.mem_insertionSort, List.mem_map, List.mem_filter,
    decide_eq_true_eq]
  constructor
  · rintro ⟨s, ⟨hs, hcat, hterr⟩, rfl⟩
    exact ⟨hs, hcat, hterr, rfl⟩
  · rintro ⟨h1, h2, h3, h4⟩
    exact ⟨e.1, ⟨h1, h2, h3⟩, by obtain ⟨s, q⟩ := e; simp only at h4 ⊢; rw [h4]⟩

theorem sorted_generate_ranking (C : ComponentFns) (shoes : List Shoe)
    (up : UserProfile) (weights : Weights) :
    (generate_ranking C shoes up weights).Sorted rank_le :=
  @List.sorted_insertionSort _ rank_le _ rank_le_isTotal rank_le_isTrans _

theorem issue_foldl_eq (A W : List String) :
    ∀ (l : List String) (s : ℚ),
      l.foldl (fun s i => if i ∈ A then s * (1/10)
        else if i ∈ W then s * (6/5) else s) s
        = s * (l.map (issue_multiplier A W)).prod
  | [], s => by simp
  | i :: l, s => by
    simp only [List.foldl_cons, List.map_cons, List.prod_cons,
      issue_foldl_eq A W l]
    unfold issue_multiplier
    split_ifs <;> ring

/-- `calculate_issue_compatibility` equals the clamped product of the
per-issue multipliers. -/
theorem issue_compatibility_eq (shoe : Shoe) (issues : List String) :
    calculate_issue_compatibility shoe issues
      = if issues = [] then 1 else min (raw_issue_score shoe issues) 1 := by
  by_cases h : issues = []
  · simp [calculate_issue_compatibility, h]
  · simp only [calculate_issue_compatibility, raw_issue_score, if_neg h]
    rw [issue_foldl_eq, one_mul]

theorem issue_multiplier_pos (A W : List String) (i : String) :
    0 < issue_multiplier A W i := by
  unfold issue_multiplier
  split_ifs <;> norm_num

theorem raw_issue_score_pos (shoe : Shoe) (issues : List String) :
    0 < raw_issue_score shoe issues := by
  unfold raw_issue_score
  apply List.prod_pos
  intro a ha
  simp only [List.mem_map] at ha
  obtain ⟨i, _, rfl⟩ := ha
  exact issue_multiplier_pos _ _ _

/-- The un-clamped issue score is an exact product of powers: one factor
`0.1` per avoid hit, one factor `1.2` per works hit. -/
theorem raw_issue_score_eq_pow (shoe : Shoe) (issues : List String) :
    raw_issue_score shoe issues
      = (1/10 : ℚ) ^ avoid_hits shoe issues * (6/5) ^ works_hits shoe issues := by
  induction issues with
  | nil => simp [raw_issue_score, avoid_hits, works_hits]
  | cons i l ih =>
    simp only [raw_issue_score, List.map_cons, List.prod_cons] at ih ⊢
    simp only [avoid_hits, works_hits, List.filter_cons] at ih ⊢
    by_cases h1 : i ∈ avoid_list shoe
    · simp [issue_multiplier, h1, pow_succ, ih]
      ring
    · by_cases h2 : i ∈ works_list shoe
      · simp [issue_multiplier, h1, h2, pow_succ, ih]
        ring
      · simp [issue_multiplier, h1, h2, ih]

/-- C4: for every stated issue list and fit profile the issue factor is built
multiplicatively — each avoid hit contributes a factor `0.1 ≤ 0.1`, each works
hit a factor `1.2 ≥ 1.2` — and the result is clamped into `[0, 1]`. -/
theorem issue_compatibility_multiplicative (shoe : Shoe) (issues : List String) :
    (0 ≤ calculate_issue_compatibility shoe issues
        ∧ calculate_issue_compatibility shoe issues ≤ 1)
      ∧ (issues ≠ [] →
          calculate_issue_compatibility shoe issues
            = min ((1/10 : ℚ) ^ avoid_hits shoe issues
                * (6/5) ^ works_hits shoe issues) 1) := by
  have he := issue_compatibility_eq shoe issues
  constructor
  · by_cases h : issues = []
    · rw [he, if_pos h]
      norm_num
    · rw [he, if_neg h]
      exact ⟨le_min (raw_issue_score_pos shoe issues).le zero_le_one,
        min_le_right _ _⟩
  · intro h
    rw [he, if_neg h, raw_issue_score_eq_pow]

/-- C4 witness: a concrete one-issue profile hitting `avoid_if`. -/
theorem issue_compatibility_multiplicative_witness :
    (["overpronation"] : List String) ≠ []
      ∧ ((0 ≤ calculate_issue_compatibility cxShoe ["overpronation"]
            ∧ calculate_issue_compatibility cxShoe ["overpronation"] ≤ 1)
          ∧ (["overpronation"] ≠ ([] : List String) →
              calculate_issue_compatibility cxShoe ["overpronation"]
                = min ((1/10 : ℚ) ^ avoid_hits cxShoe ["overpronation"]
                    * (6/5) ^ works_hits cxShoe ["overpronation"]) 1)) :=
  ⟨by simp, issue_compatibility_multiplicative cxShoe ["overpronation"]⟩

/-- C9: the width factor is total and bounded: it always lies in `[0, 1]`, a
missing shoe width behaves as `'true'`, a missing user width as `'standard'`,
and every `(shoe_width, user_width)` combination outside the nine-entry table
— in particular any pair with user width `'extra_wide'` — yields exactly
`0.5`. -/
theorem width_match_total_bounded (fp : FitProfile) (foot : FootProfile) :
    (0 ≤ calculate_width_match fp foot ∧ calculate_width_match fp foot ≤ 1)
      ∧ (fp.width_runs = none →
          calculate_width_match fp foot
            = calculate_width_match { fp with width_runs := some "true" } foot)
      ∧ (foot.width = none →
          calculate_width_match fp foot
            = calculate_width_match fp { foot with width := some "standard" })
      ∧ ((fp.width_runs.getD "true", foot.width.getD "standard")
            ∉ width_map.map Prod.fst →
          calculate_width_match fp foot = 1/2)
      ∧ (foot.width = some "extra_wide" →
          calculate_width_match fp foot = 1/2) := by
  refine ⟨?_, ?_, ?_, ?_, ?_⟩
  · unfold calculate_width_match
    rcases dictGetD_default_or_mem width_map
        (fp.width_runs.getD "true", foot.width.getD "standard") ((1:ℚ)/2)
      with h | ⟨p, hp, h⟩
    · rw [h]
      norm_num
    · rw [h]
      simp only [width_map, List.mem_cons, List.not_mem_nil, or_false] at hp
      rcases hp with rfl | rfl | rfl | rfl | rfl | rfl | rfl | rfl | rfl <;>
        norm_num
  · intro h
    simp [calculate_width_match, h]
  · intro h
    simp [calculate_width_match, h]
  · intro h
    unfold calculate_width_match
    exact dictGetD_not_mem_keys width_map _ _ h
  · intro h
    unfold calculate_width_match
    apply dictGetD_not_mem_keys width_map _ _
    rw [h]
    simp [width_map]

/-- C9 witness: a missing shoe width, an `extra_wide` user, and an off-table
pair with a listed shoe width and the unlisted user width `"medium"`. -/
theorem width_match_total_bounded_witness :
    ((⟨none, none, none, none⟩ : FitProfile).width_runs = none
        ∧ calculate_width_match ⟨none, none, none, none⟩ ⟨some "extra_wide", none⟩
            = calculate_width_match ⟨some "true", none, none, none⟩
                ⟨some "extra_wide", none⟩)
      ∧ ((⟨some "extra_wide", none⟩ : FootProfile).width = some "extra_wide"
          ∧ calculate_width_match ⟨none, none, none, none⟩ ⟨some "extra_wide", none⟩
              = 1/2)
      ∧ (((⟨some "narrow", none, none, none⟩ : FitProfile).width_runs.getD "true",
            (⟨some "medium", none⟩ : FootProfile).width.getD "standard")
              ∉ width_map.map Prod.fst
          ∧ calculate_width_match ⟨some "narrow", none, none, none⟩
              ⟨some "medium", none⟩ = 1/2) :=
  ⟨⟨rfl, (width_match_total_bounded ⟨none, none, none, none⟩
      ⟨some "extra_wide", none⟩).2.1 rfl⟩,
    ⟨rfl, (width_match_total_bounded ⟨none, none, none, none⟩
      ⟨some "extra_wide", none⟩).2.2.2.2 rfl⟩,
    ⟨by decide, (width_match_total_bounded ⟨some "narrow", none, none, none⟩
      ⟨some "medium", none⟩).2.2.2.1 (by decide)⟩⟩

/-- C10: the issue factor is strictly positive for every issue list, equals
`1.0` when no issues are stated, and stated issues alone never exclude a
product: any candidate passing the category and terrain filters appears in
the ranking whatever its issue factor. -/
theorem issue_compatibility_never_excludes (shoe : Shoe) (issues : List String) :
    0 < calculate_issue_compatibility shoe issues
      ∧ calculate_issue_compatibility shoe [] = 1
      ∧ (∀ (C : ComponentFns) (shoes : List Shoe) (up : UserProfile)
            (w : Weights), shoe ∈ shoes → shoe.category = up.category →
            C.terrain shoe up ≠ 0 →
            (shoe, calculate_match_score C shoe up w)
              ∈ generate_ranking C shoes up w) := by
  refine ⟨?_, by simp [calculate_issue_compatibility], ?_⟩
  · rw [issue_compatibility_eq]
    by_cases h : issues = []
    · simp [h]
    · rw [if_neg h]
      exact lt_min (raw_issue_score_pos shoe issues) one_pos
  · intro C shoes up w h1 h2 h3
    exact mem_generate_ranking.mpr ⟨h1, h2, h3, rfl⟩

/-- C10 witness: a flagged shoe still appears in a concrete ranking. -/
theorem issue_compatibility_never_excludes_witness :
    (cxShoe ∈ [cxShoe] ∧ cxShoe.category = cxUp.category
        ∧ constC.terrain cxShoe cxUp ≠ 0)
      ∧ (0 < calculate_issue_compatibility cxShoe ["overpronation"]
          ∧ calculate_issue_compatibility cxShoe [] = 1
          ∧ (cxShoe, calculate_match_score constC cxShoe cxUp DEFAULT_WEIGHTS)
              ∈ generate_ranking constC [cxShoe] cxUp DEFAULT_WEIGHTS) :=
  ⟨⟨List.mem_singleton.mpr rfl, rfl, one_ne_zero⟩,
    ⟨(issue_compatibility_never_excludes cxShoe ["overpronation"]).1,
      (issue_compatibility_never_excludes cxShoe ["overpronation"]).2.1,
      (issue_compatibility_never_excludes cxShoe ["overpronation"]).2.2 constC
        [cxShoe] cxUp DEFAULT_WEIGHTS (List.mem_singleton.mpr rfl) rfl
        one_ne_zero⟩⟩

/-- C1: no entry of the ranked output references a product whose category
differs from the requested category — such products are excluded before
scoring and never enter the ranking. -/
theorem category_filter_excludes_mismatched (C : ComponentFns)
    (shoes : List Shoe) (up : UserProfile) (weights : Weights) (e : Shoe × ℚ)
    (h : e ∈ generate_ranking C shoes up weights) :
    e.1.category = up.category :=
  (mem_generate_ranking.mp h).2.1

/-- C1 witness: a concrete ranking entry, with the membership hypothesis
discharged explicitly. -/
theorem category_filter_excludes_mismatched_witness :
    (cxShoe, calculate_match_score constC cxShoe cxUp DEFAULT_WEIGHTS)
        ∈ generate_ranking constC [cxShoe] cxUp DEFAULT_WEIGHTS
      ∧ (cxShoe, calculate_match_score constC cxShoe cxUp
          DEFAULT_WEIGHTS).1.category = cxUp.category :=
  ⟨mem_generate_ranking.mpr ⟨List.mem_singleton.mpr rfl, rfl, one_ne_zero, rfl⟩,
    category_filter_excludes_mismatched constC [cxShoe] cxUp DEFAULT_WEIGHTS _
      (mem_generate_ranking.mpr
        ⟨List.mem_singleton.mpr rfl, rfl, one_ne_zero, rfl⟩)⟩

/-- C7: scoring and ranking are deterministic functions of their inputs —
two invocations with equal user profile, candidate set, fit-profile snapshot
(carried inside each `Shoe`), component functions and active weight vector
return identical rankings and identical per-product scores.  Freedom from
side effects holds by construction in this embedding: the functions take all
state they read as arguments. -/
theorem scoring_deterministic (C C' : ComponentFns) (shoes shoes' : List Shoe)
    (up up' : UserProfile) (w w' : Weights)
    (hC : C = C') (hs : shoes = shoes') (hu : up = up') (hw : w = w') :
    generate_ranking C shoes up w = generate_ranking C' shoes' up' w'
      ∧ ∀ shoe, calculate_match_score C shoe up w
          = calculate_match_score C' shoe up' w' := by
  subst hC hs hu hw
  exact ⟨rfl, fun _ => rfl⟩

/-- C7 witness: the determinism theorem applied at concrete inputs. -/
theorem scoring_deterministic_witness :
    generate_ranking constC [cxShoe] cxUp DEFAULT_WEIGHTS
        = generate_ranking constC [cxShoe] cxUp DEFAULT_WEIGHTS
      ∧ ∀ shoe, calculate_match_score constC shoe cxUp DEFAULT_WEIGHTS
          = calculate_match_score constC shoe cxUp DEFAULT_WEIGHTS :=
  scoring_deterministic constC constC [cxShoe] [cxShoe] cxUp cxUp
    DEFAULT_WEIGHTS DEFAULT_WEIGHTS rfl rfl rfl rfl

/-- C2 (amended): for every surviving candidate the final score is the
weighted mean of the factor scores over the weight vector's factor set, but a
factor missing from the computed score dictionary contributes the code's
default `0.5`, not the claimed neutral `1.0`; pronation for a non-running
shoe does score a neutral `1.0` (inside the factor itself), while prior-shoe
history when no history is supplied is simply absent from the dictionary and
so contributes `0.5`. -/
theorem final_score_weighted_mean_amended (C : ComponentFns) (shoe : Shoe)
    (up : UserProfile) (w : Weights)
    (hcat : shoe.category = up.category) (hterr : C.terrain shoe up ≠ 0) :
    calculate_match_score C shoe up w
        = weighted_mean_over (factor_scores C shoe up (C.terrain shoe up))
            (1/2) w
      ∧ (shoe.category ≠ "running" →
          dictGetD (factor_scores C shoe up (C.terrain shoe up))
            "pronation" (1/2) = 1)
      ∧ (up.previous_shoes = [] →
          dictGetD (factor_scores C shoe up (C.terrain shoe up))
            "history" (1/2) = 1/2) := by
  refine ⟨?_, ?_, ?_⟩
  · unfold calculate_match_score
    rw [if_neg (fun hne => hne hcat)]
    exact if_neg hterr
  · intro h
    simp [factor_scores, dictGetD, calculate_pronation_match, h]
  · intro h
    simp [factor_scores, dictGetD, h]

/-- C2 amended witness: the amended statement applied at a concrete surviving
candidate with no prior-shoe history. -/
theorem final_score_weighted_mean_amended_witness :
    cxShoe.category = cxUp.category ∧ constC.terrain cxShoe cxUp ≠ 0
      ∧ (calculate_match_score constC cxShoe cxUp DEFAULT_WEIGHTS
            = weighted_mean_over
                (factor_scores constC cxShoe cxUp (constC.terrain cxShoe cxUp))
                (1/2) DEFAULT_WEIGHTS
          ∧ (cxShoe.category ≠ "running" →
              dictGetD (factor_scores constC cxShoe cxUp
                (constC.terrain cxShoe cxUp)) "pronation" (1/2) = 1)
          ∧ (cxUp.previous_shoes = [] →
              dictGetD (factor_scores constC cxShoe cxUp
                (constC.terrain cxShoe cxUp)) "history" (1/2) = 1/2)) :=
  ⟨rfl, one_ne_zero,
    final_score_weighted_mean_amended constC cxShoe cxUp DEFAULT_WEIGHTS rfl
      one_ne_zero⟩

/-- C2 counterexample: on a concrete surviving candidate with no prior-shoe
history and the default weight vector (which contains the `history` factor),
the code's final score differs from the claimed weighted mean in which every
non-applicable factor contributes a neutral `1.0` — the absent `history`
factor contributes `0.5`. -/
theorem history_default_counterexample :
    cxUp.previous_shoes = [] ∧ cxShoe.category = cxUp.category
      ∧ constC.terrain cxShoe cxUp ≠ 0
      ∧ ("history", (4:ℚ)/5) ∈ DEFAULT_WEIGHTS
      ∧ calculate_match_score constC cxShoe cxUp DEFAULT_WEIGHTS
          ≠ calculate_match_score_spec_neutral constC cxShoe cxUp
              DEFAULT_WEIGHTS := by
  refine ⟨rfl, rfl, one_ne_zero, by simp [DEFAULT_WEIGHTS], ?_⟩
  simp [calculate_match_score, calculate_match_score_spec_neutral,
    weighted_mean_over, factor_scores, dictGetD, prod_beq_def,
    calculate_width_match, calculate_pronation_match,
    calculate_issue_compatibility, width_map, support_map, sentiment_score,
    DEFAULT_WEIGHTS, constC, cxShoe, cxUp, min_def]
  norm_num


theorem has_review_insert_mono (store : ReviewStore) (sid : String)
    (r : RawReview) (k : String × String × String)
    (h : has_review store k = true) :
    has_review (insert_review store sid r) k = true := by
  unfold insert_review
  split
  · exact h
  · unfold has_review at h ⊢
    simp only [List.any_append, h, Bool.true_or]

theorem has_review_insert_self (store : ReviewStore) (sid : String)
    (r : RawReview) :
    has_review (insert_review store sid r) (review_key sid r) = true := by
  unfold insert_review
  split
  · assumption
  · unfold has_review
    simp [List.any_append]

theorem has_review_store_mono (sid : String) :
    ∀ (reviews : List RawReview) (store : ReviewStore)
      (k : String × String × String), has_review store k = true →
      has_review (store_reviews store sid reviews) k = true
  | [], _, _, h => h
  | r :: rs, store, k, h => by
    unfold store_reviews
    simp only [List.foldl_cons]
    exact has_review_store_mono sid rs _ k (has_review_insert_mono store sid r k h)

theorem store_reviews_has_all (sid : String) :
    ∀ (reviews : List RawReview) (store : ReviewStore) (r : RawReview),
      r ∈ reviews →
      has_review (store_reviews store sid reviews) (review_key sid r) = true
  | [], _, _, h => absurd h (List.not_mem_nil _)
  | b :: bs, store, r, h => by
    unfold store_reviews
    simp only [List.foldl_cons]
    rcases List.mem_cons.mp h with rfl | h'
    · exact has_review_store_mono sid bs _ _ (has_review_insert_self store sid r)
    · exact store_reviews_has_all sid bs _ r h'

theorem store_reviews_no_op (sid : String) :
    ∀ (reviews : List RawReview) (store : ReviewStore),
      (∀ r ∈ reviews, has_review store (review_key sid r) = true) →
      store_reviews store sid reviews = store
  | [], _, _ => rfl
  | b :: bs, store, h => by
    unfold store_reviews
    simp only [List.foldl_cons]
    have hb : insert_review store sid b = store := by
      unfold insert_review
      exact if_pos (h b (List.mem_cons_self b bs))
    rw [hb]
    exact store_reviews_no_op sid bs store (fun r hr => h r (List.mem_cons_of_mem b hr))

/-- C6: re-ingesting a review whose `(shoe_id, source, source_review_id)`
triple is already stored is a no-op — the store is unchanged, so the count
does not grow and the stored row is not modified, and no error is produced
(the operation is total) — and re-running an identical ingestion batch leaves
the review store unchanged. -/
theorem raw_review_dedup_idempotent :
    (∀ (store : ReviewStore) (shoe_id : String) (r : RawReview),
        has_review store (review_key shoe_id r) = true →
          insert_review store shoe_id r = store)
      ∧ (∀ (store : ReviewStore) (shoe_id : String)
            (reviews : List RawReview),
          store_reviews (store_reviews store shoe_id reviews) shoe_id reviews
            = store_reviews store shoe_id reviews) := by
  constructor
  · intro store sid r h
    unfold insert_review
    exact if_pos h
  · intro store sid reviews
    exact store_reviews_no_op sid reviews _
      (fun r hr => store_reviews_has_all sid reviews store r hr)

/-- C6 witness: a concrete duplicate insert, shown to be a no-op. -/
theorem raw_review_dedup_idempotent_witness :
    has_review [("shoe1", cxReview)] (review_key "shoe1" cxReview) = true
      ∧ insert_review [("shoe1", cxReview)] "shoe1" cxReview
          = [("shoe1", cxReview)] :=
  ⟨by decide, raw_review_dedup_idempotent.1 [("shoe1", cxReview)] "shoe1"
      cxReview (by decide)⟩

/-- C3: the extraction task accepts a schema-invalid response in full — the
prior profile is overwritten wholesale with the invalid document (only
`needs_review` is set), contrary to the claimed reject-and-retain behavior.
Evaluated at the failing input: a response whose `width_runs` is
`"extra_wide"`, outside the enumerated set `{narrow, true, wide}`. -/
theorem extraction_accepts_invalid_response :
    fit_profile_schema_valid cxBadResponse = false
      ∧ extract_fit_profile_task cxFitStore "shoe1" [cxReview] cxBadResponse
          "shoe1" = some ⟨cxBadResponse, 1, "claude-sonnet-4-20250514", true⟩
      ∧ extract_fit_profile_task cxFitStore "shoe1" [cxReview] cxBadResponse
          "shoe1" ≠ some cxPriorRow := by
  refine ⟨?_, rfl, ?_⟩
  · simp [fit_profile_schema_valid, cxBadResponse, opt_valid, str_in]
  · intro h
    rw [show extract_fit_profile_task cxFitStore "shoe1" [cxReview]
        cxBadResponse "shoe1"
        = some ⟨cxBadResponse, 1, "claude-sonnet-4-20250514", true⟩ from rfl]
      at h
    simp [cxPriorRow, cxBadResponse, cxPriorProfile, StoredFitRow.mk.injEq] at h

/-- C8: a proposed weight vector whose held-out evaluation score is more than
the tolerance below the active vector's score never becomes active — the
promotion step keeps the prior active vector. -/
theorem promotion_guard (ndcg : List String → List String → ℚ)
    (ranker : QuizAnswers → Weights → List String)
    (held_out : List TrainingExample) (tol : ℚ) (active proposed : Weights)
    (h : optimizer_evaluate ndcg ranker proposed held_out
        < optimizer_evaluate ndcg ranker active held_out - tol) :
    promote_weights ndcg ranker held_out tol active proposed = active := by
  unfold promote_weights
  exact if_pos h

/-- C8 witness: a concrete regressing proposal is rejected. -/
theorem promotion_guard_witness :
    optimizer_evaluate cxNdcg cxRanker [("issues", (1:ℚ))] [cxExample]
        < optimizer_evaluate cxNdcg cxRanker [("terrain", (1:ℚ))] [cxExample]
            - 1/2
      ∧ promote_weights cxNdcg cxRanker [cxExample] (1/2)
          [("terrain", (1:ℚ))] [("issues", (1:ℚ))] = [("terrain", (1:ℚ))] := by
  have h : optimizer_evaluate cxNdcg cxRanker [("issues", (1:ℚ))] [cxExample]
      < optimizer_evaluate cxNdcg cxRanker [("terrain", (1:ℚ))] [cxExample]
          - 1/2 := by
    simp [optimizer_evaluate, cxNdcg, cxRanker, cxExample]
    norm_num
  exact ⟨h, promotion_guard cxNdcg cxRanker [cxExample] (1/2)
    [("terrain", (1:ℚ))] [("issues", (1:ℚ))] h⟩

theorem map_prod_le {f g : String → ℚ} (hf : ∀ x, 0 ≤ f x)
    (hle : ∀ x, f x ≤ g x) :
    ∀ l : List String, (l.map f).prod ≤ (l.map g).prod
  | [] => le_refl 1
  | a :: t => by
    simp only [List.map_cons, List.prod_cons]
    have hg : 0 ≤ g a := le_trans (hf a) (hle a)
    have hpf : 0 ≤ (t.map f).prod := by
      apply List.prod_nonneg
      intro x hx
      simp only [List.mem_map] at hx
      obtain ⟨y, _, rfl⟩ := hx
      exact hf y
    exact mul_le_mul (hle a) (map_prod_le hf hle t) hpf hg

theorem map_prod_pos {f : String → ℚ} (hf : ∀ x, 0 < f x) (l : List String) :
    0 < (l.map f).prod := by
  apply List.prod_pos
  intro x hx
  simp only [List.mem_map] at hx
  obtain ⟨y, _, rfl⟩ := hx
  exact hf y

theorem map_prod_lt {f g : String → ℚ} (hf : ∀ x, 0 < f x)
    (hle : ∀ x, f x ≤ g x) {c : String} :
    ∀ {l : List String}, c ∈ l → f c < g c →
      (l.map f).prod < (l.map g).prod := by
  intro l
  induction l with
  | nil => exact fun h _ => absurd h (List.not_mem_nil c)
  | cons a t ih =>
    intro hc hlt
    simp only [List.map_cons, List.prod_cons]
    have hg : ∀ x, 0 < g x := fun x => lt_of_lt_of_le (hf x) (hle x)
    have hpg : 0 < (t.map g).prod := map_prod_pos hg t
    rcases List.mem_cons.mp hc with rfl | hct
    · calc f c * (t.map f).prod
          ≤ f c * (t.map g).prod :=
            mul_le_mul_of_nonneg_left
              (map_prod_le (fun x => (hf x).le) hle t) (hf c).le
        _ < g c * (t.map g).prod := mul_lt_mul_of_pos_right hlt hpg
    · calc f a * (t.map f).prod
          < f a * (t.map g).prod := mul_lt_mul_of_pos_left (ih hct hlt) (hf a)
        _ ≤ g a * (t.map g).prod := mul_le_mul_of_nonneg_right (hle a) hpg.le

theorem dictGetD_le_of_forall2 {sf su : List (String × ℚ)}
    (h : List.Forall₂ (fun p q => p.1 = q.1 ∧ p.2 ≤ q.2) sf su)
    (k : String) (d : ℚ) :
    dictGetD sf k d ≤ dictGetD su k d := by
  induction h with
  | nil => exact le_refl d
  | @cons p q sf' su' hpq htl ih =>
    obtain ⟨hk, hv⟩ := hpq
    unfold dictGetD at ih ⊢
    cases hb : (p.1 == k) with
    | true =>
      have hb2 : (q.1 == k) = true := by rw [← hk]; exact hb
      simp only [List.find?_cons, hb, hb2]
      exact hv
    | false =>
      have hb2 : (q.1 == k) = false := by rw [← hk]; exact hb
      simp only [List.find?_cons, hb, hb2]
      exact ih

/-- The `issues` entry of the factor-score dictionary is the issue factor. -/
theorem dictGetD_factor_scores_issues (C : ComponentFns) (shoe : Shoe)
    (up : UserProfile) (ts : ℚ) :
    dictGetD (factor_scores C shoe up ts) "issues" (1/2)
      = calculate_issue_compatibility shoe up.foot_issues := by
  simp [factor_scores, dictGetD]

theorem weighted_sum_le (sf su : List (String × ℚ))
    (hle : ∀ k, dictGetD sf k (1/2) ≤ dictGetD su k (1/2)) :
    ∀ w : Weights, (∀ p ∈ w, 0 ≤ p.2) →
      (w.map (fun kw => dictGetD sf kw.1 (1/2) * kw.2)).sum
        ≤ (w.map (fun kw => dictGetD su kw.1 (1/2) * kw.2)).sum
  | [], _ => le_refl 0
  | p :: t, hW => by
    simp only [List.map_cons, List.sum_cons]
    exact add_le_add
      (mul_le_mul_of_nonneg_right (hle p.1) (hW p (List.mem_cons_self p t)))
      (weighted_sum_le sf su hle t
        (fun q hq => hW q (List.mem_cons_of_mem p hq)))

theorem weighted_sum_lt (sf su : List (String × ℚ))
    (hle : ∀ k, dictGetD sf k (1/2) ≤ dictGetD su k (1/2))
    (hstrict : dictGetD sf "issues" (1/2) < dictGetD su "issues" (1/2)) :
    ∀ w : Weights, (∀ p ∈ w, 0 < p.2) →
      (∃ wi, ("issues", wi) ∈ w) →
      (w.map (fun kw => dictGetD sf kw.1 (1/2) * kw.2)).sum
        < (w.map (fun kw => dictGetD su kw.1 (1/2) * kw.2)).sum
  | [], _, ⟨_, hmem⟩ => absurd hmem (List.not_mem_nil _)
  | p :: t, hW, ⟨wi, hmem⟩ => by
    simp only [List.map_cons, List.sum_cons]
    rcases List.mem_cons.mp hmem with heq | htail
    · have hp1 : p.1 = "issues" := by rw [← heq]
      have hp2 : (0:ℚ) < p.2 := hW p (List.mem_cons_self p t)
      have hterm : dictGetD sf p.1 (1/2) * p.2 < dictGetD su p.1 (1/2) * p.2 := by
        rw [hp1]
        exact mul_lt_mul_of_pos_right hstrict hp2
      exact add_lt_add_of_lt_of_le hterm
        (weighted_sum_le sf su hle t
          (fun q hq => (hW q (List.mem_cons_of_mem p hq)).le))
    · exact add_lt_add_of_le_of_lt
        (mul_le_mul_of_nonneg_right (hle p.1)
          (hW p (List.mem_cons_self p t)).le)
        (weighted_sum_lt sf su hle hstrict t
          (fun q hq => hW q (List.mem_cons_of_mem p hq)) ⟨wi, htail⟩)

theorem weights_sum_pos (w : Weights) (hw : weights_in_clamp_range w)
    (hne : w ≠ []) : 0 < (w.map (fun kw => kw.2)).sum := by
  cases w with
  | nil => exact absurd rfl hne
  | cons p t =>
    simp only [List.map_cons, List.sum_cons]
    have hp : (0:ℚ) < p.2 :=
      lt_of_lt_of_le (by norm_num) (hw p (List.mem_cons_self p t)).1
    have ht : 0 ≤ (t.map (fun kw => kw.2)).sum := by
      apply List.sum_nonneg
      intro x hx
      simp only [List.mem_map] at hx
      obtain ⟨q, hq, rfl⟩ := hx
      exact le_trans (by norm_num)
        (hw q (List.mem_cons_of_mem p hq)).1
    exact add_pos_of_pos_of_nonneg hp ht

/-- A surviving candidate's score is the weighted mean of its factors. -/
theorem match_score_surviving (C : ComponentFns) (shoe : Shoe)
    (up : UserProfile) (w : Weights) (h1 : shoe.category = up.category)
    (h2 : C.terrain shoe up ≠ 0) :
    calculate_match_score C shoe up w
      = weighted_mean_over (factor_scores C shoe up (C.terrain shoe up))
          (1/2) w := by
  unfold calculate_match_score
  rw [if_neg (fun hne => hne h1)]
  exact if_neg h2

/-- Strict comparison of the issue factors of two products identical except
that the flagged one lists a stated condition in `avoid_if`, provided the
flagged raw product stays below the `1.0` clamp. -/
theorem issue_factor_strict {flagged unflagged : Shoe} {issues : List String}
    {c : String}
    (hworks : works_list flagged = works_list unflagged)
    (hc_issue : c ∈ issues)
    (hc_avoid : c ∈ avoid_list flagged)
    (hc_not : c ∉ avoid_list unflagged)
    (hother : ∀ x, x ≠ c →
      (x ∈ avoid_list flagged ↔ x ∈ avoid_list unflagged))
    (hraw : raw_issue_score flagged issues < 1) :
    calculate_issue_compatibility flagged issues
      < calculate_issue_compatibility unflagged issues := by
  have hne : issues ≠ [] := List.ne_nil_of_mem hc_issue
  have hle : ∀ x, issue_multiplier (avoid_list flagged) (works_list flagged) x
      ≤ issue_multiplier (avoid_list unflagged) (works_list unflagged) x := by
    intro x
    by_cases hx : x = c
    · subst hx
      unfold issue_multiplier
      rw [if_pos hc_avoid, if_neg hc_not]
      split_ifs <;> norm_num
    · unfold issue_multiplier
      rw [hworks]
      by_cases hav : x ∈ avoid_list flagged
      · rw [if_pos hav, if_pos ((hother x hx).mp hav)]
      · rw [if_neg hav, if_neg (fun h => hav ((hother x hx).mpr h))]
  have hstrict_c :
      issue_multiplier (avoid_list flagged) (works_list flagged) c
        < issue_multiplier (avoid_list unflagged) (works_list unflagged) c := by
    unfold issue_multiplier
    rw [if_pos hc_avoid, if_neg hc_not]
    split_ifs <;> norm_num
  have hprod : raw_issue_score flagged issues
      < raw_issue_score unflagged issues := by
    unfold raw_issue_score
    exact map_prod_lt (fun x => issue_multiplier_pos _ _ x) hle hc_issue
      hstrict_c
  rw [issue_compatibility_eq, issue_compatibility_eq, if_neg hne, if_neg hne,
    min_eq_left hraw.le]
  exact lt_min hprod hraw

/-- Factor-score dictionaries of two products identical in every field the
factors read, except possibly a smaller issue factor on the first, are
pointwise related. -/
theorem factor_scores_forall2 (C : ComponentFns) (up : UserProfile)
    {flagged unflagged : Shoe}
    (hcat : flagged.category = unflagged.category)
    (hrun : flagged.running_attributes = unflagged.running_attributes)
    (hwidth : flagged.fit_profile.width_runs = unflagged.fit_profile.width_runs)
    (hsent : flagged.fit_profile.overall_sentiment
      = unflagged.fit_profile.overall_sentiment)
    (hprice : flagged.current_price_min = unflagged.current_price_min)
    (harch : C.arch flagged up.foot = C.arch unflagged up.foot)
    (hcush : C.cushion flagged up.preferences
      = C.cushion unflagged up.preferences)
    (hprio : C.priorities flagged up.priorities
      = C.priorities unflagged up.priorities)
    (hdist : C.distance flagged up.distances
      = C.distance unflagged up.distances)
    (hpos : C.position flagged up.position = C.position unflagged up.position)
    (hhist : C.history flagged up.previous_shoes
      = C.history unflagged up.previous_shoes)
    (hiss : calculate_issue_compatibility flagged up.foot_issues
      ≤ calculate_issue_compatibility unflagged up.foot_issues)
    (ts : ℚ) :
    List.Forall₂ (fun p q => p.1 = q.1 ∧ p.2 ≤ q.2)
      (factor_scores C flagged up ts) (factor_scores C unflagged up ts) := by
  have hwm : calculate_width_match flagged.fit_profile up.foot
      = calculate_width_match unflagged.fit_profile up.foot := by
    unfold calculate_width_match
    rw [hwidth]
  have hpm : calculate_pronation_match flagged up.foot
      = calculate_pronation_match unflagged up.foot := by
    unfold calculate_pronation_match
    rw [hcat, hrun]
  unfold factor_scores
  refine List.rel_append (List.rel_append ?_ ?_) ?_
  · exact List.Forall₂.cons ⟨rfl, le_refl _⟩
      (List.Forall₂.cons ⟨rfl, le_of_eq hwm⟩
        (List.Forall₂.cons ⟨rfl, le_of_eq harch⟩
          (List.Forall₂.cons ⟨rfl, le_of_eq hpm⟩
            (List.Forall₂.cons ⟨rfl, hiss⟩
              (List.Forall₂.cons ⟨rfl, le_of_eq hcush⟩
                (List.Forall₂.cons ⟨rfl, le_of_eq hprio⟩
                  (List.Forall₂.cons ⟨rfl, le_of_eq hdist⟩
                    (List.Forall₂.cons ⟨rfl, le_of_eq hpos⟩
                      (List.Forall₂.cons ⟨rfl, le_of_eq (by rw [hprice])⟩
                        List.Forall₂.nil)))))))))
  · by_cases hp : up.previous_shoes = []
    · rw [if_neg (fun h => h hp), if_neg (fun h => h hp)]
      exact List.Forall₂.nil
    · rw [if_pos hp, if_pos hp]
      exact List.Forall₂.cons ⟨rfl, le_of_eq hhist⟩ List.Forall₂.nil
  · exact List.Forall₂.cons ⟨rfl, le_of_eq (by rw [hsent])⟩ List.Forall₂.nil

/-- C5 (amended): for every weight vector inside the valid clamp range that
contains the `issues` factor, and every pair of candidates identical in every
field the factor functions read except that the flagged one additionally
lists a user-stated condition in `avoid_if` (and carries a distinct
identifier), the flagged product never ranks above the unflagged one in the
returned ranking — provided the flagged product's raw multiplicative issue
score stays below the `1.0` clamp.  When the raw score reaches the clamp the
two issue factors both saturate at `1.0`, the final scores tie, and the
identifier tie-break can place the flagged product first (see the
counterexample). -/
theorem avoid_if_never_outranks_amended
    (C : ComponentFns) (shoes : List Shoe) (up : UserProfile) (w : Weights)
    (flagged unflagged : Shoe) (c : String)
    (hid : flagged.id ≠ unflagged.id)
    (hcat : flagged.category = unflagged.category)
    (hrun : flagged.running_attributes = unflagged.running_attributes)
    (hwidth : flagged.fit_profile.width_runs = unflagged.fit_profile.width_runs)
    (hworks : flagged.fit_profile.works_well_for
      = unflagged.fit_profile.works_well_for)
    (hsent : flagged.fit_profile.overall_sentiment
      = unflagged.fit_profile.overall_sentiment)
    (hprice : flagged.current_price_min = unflagged.current_price_min)
    (hterr : C.terrain flagged up = C.terrain unflagged up)
    (harch : C.arch flagged up.foot = C.arch unflagged up.foot)
    (hcush : C.cushion flagged up.preferences
      = C.cushion unflagged up.preferences)
    (hprio : C.priorities flagged up.priorities
      = C.priorities unflagged up.priorities)
    (hdist : C.distance flagged up.distances
      = C.distance unflagged up.distances)
    (hpos : C.position flagged up.position = C.position unflagged up.position)
    (hhist : C.history flagged up.previous_shoes
      = C.history unflagged up.previous_shoes)
    (hc_issue : c ∈ up.foot_issues)
    (hc_avoid : c ∈ avoid_list flagged)
    (hc_not : c ∉ avoid_list unflagged)
    (hother : ∀ x, x ≠ c →
      (x ∈ avoid_list flagged ↔ x ∈ avoid_list unflagged))
    (hw : weights_in_clamp_range w)
    (hwi : ∃ wi, ("issues", wi) ∈ w)
    (hraw : raw_issue_score flagged up.foot_issues < 1) :
    ∀ (i j : ℕ) (ef eu : Shoe × ℚ),
      (generate_ranking C shoes up w).get? i = some ef →
      (generate_ranking C shoes up w).get? j = some eu →
      ef.1 = flagged → eu.1 = unflagged → j < i := by
  intro i j ef eu hgf hgu hef heu
  by_contra hnot
  push_neg at hnot
  obtain ⟨hi, hgi⟩ := List.get?_eq_some.mp hgf
  obtain ⟨hj, hgj⟩ := List.get?_eq_some.mp hgu
  have hmi : ef ∈ generate_ranking C shoes up w :=
    hgi ▸ List.get_mem _ _ _
  have hmj : eu ∈ generate_ranking C shoes up w :=
    hgj ▸ List.get_mem _ _ _
  obtain ⟨hfin, hfcat, hfterr, hfscore⟩ := mem_generate_ranking.mp hmi
  obtain ⟨huin, hucat, huterr, huscore⟩ := mem_generate_ranking.mp hmj
  rw [hef] at hfcat hfterr hfscore
  rw [heu] at hucat huterr huscore
  have hWpos : ∀ p ∈ w, (0:ℚ) < p.2 := fun p hp =>
    lt_of_lt_of_le (by norm_num) (hw p hp).1
  have hworksL : works_list flagged = works_list unflagged := by
    unfold works_list
    rw [hworks]
  have hiss_lt := issue_factor_strict hworksL hc_issue hc_avoid hc_not hother
    hraw
  have hf2 := factor_scores_forall2 C up hcat hrun hwidth hsent hprice harch
    hcush hprio hdist hpos hhist hiss_lt.le (C.terrain flagged up)
  have hle : ∀ k,
      dictGetD (factor_scores C flagged up (C.terrain flagged up)) k (1/2)
        ≤ dictGetD (factor_scores C unflagged up (C.terrain flagged up)) k
            (1/2) :=
    fun k => dictGetD_le_of_forall2 hf2 k _
  have hstrict :
      dictGetD (factor_scores C flagged up (C.terrain flagged up)) "issues"
          (1/2)
        < dictGetD (factor_scores C unflagged up (C.terrain flagged up))
            "issues" (1/2) := by
    rw [dictGetD_factor_scores_issues, dictGetD_factor_scores_issues]
    exact hiss_lt
  have hnum := weighted_sum_lt _ _ hle hstrict w hWpos hwi
  have hden := weights_sum_pos w hw
    (by rcases hwi with ⟨wi, hmem⟩; exact List.ne_nil_of_mem hmem)
  have hscore : calculate_match_score C flagged up w
      < calculate_match_score C unflagged up w := by
    rw [match_score_surviving C flagged up w hfcat hfterr,
      match_score_surviving C unflagged up w hucat huterr]
    unfold weighted_mean_over
    rw [← hterr]
    exact (div_lt_div_iff_of_pos_right hden).mpr hnum
  rcases lt_or_eq_of_le hnot with hij | hij
  · have hrel : rank_le ((generate_ranking C shoes up w).get ⟨i, hi⟩)
        ((generate_ranking C shoes up w).get ⟨j, hj⟩) :=
      (sorted_generate_ranking C shoes up w).rel_get_of_lt hij
    rw [hgi, hgj] at hrel
    have hge := rank_le_score_ge hrel
    rw [hfscore, huscore] at hge
    exact absurd hscore (not_lt.mpr hge)
  · subst hij
    rw [hgf] at hgu
    have hfe : ef = eu := Option.some.inj hgu
    rw [hfe, heu] at hef
    exact hid (congrArg Shoe.id hef.symm)

/-- C5 counterexample: at the `1.0` clamp the claim fails as stated.  With
fourteen stated conditions — one in the flagged product's `avoid_if`, the
other thirteen hitting the shared `works_well_for` — both products' issue
factors clamp to `1.0`, the final scores tie, and the identifier tie-break
ranks the flagged product (id `"a"`) strictly above the otherwise-identical
unflagged product (id `"b"`), under a weight vector inside the valid clamp
range. -/
theorem avoid_if_tie_counterexample :
    ("c" : String) ∈ cx5Up.foot_issues
      ∧ "c" ∈ avoid_list cx5Flag
      ∧ "c" ∉ avoid_list cx5Unflag
      ∧ cx5Flag.fit_profile.works_well_for
          = cx5Unflag.fit_profile.works_well_for
      ∧ cx5Flag.fit_profile.width_runs = cx5Unflag.fit_profile.width_runs
      ∧ cx5Flag.fit_profile.overall_sentiment
          = cx5Unflag.fit_profile.overall_sentiment
      ∧ weights_in_clamp_range [("issues", (1:ℚ))]
      ∧ (generate_ranking constC [cx5Flag, cx5Unflag] cx5Up
          [("issues", (1:ℚ))]).map (fun e => e.1.id) = ["a", "b"] := by
  have hf : calculate_issue_compatibility cx5Flag cx5Up.foot_issues = 1 := by
    rw [issue_compatibility_eq, if_neg (by simp [cx5Up]), min_eq_right ?hle]
    case hle =>
      simp [raw_issue_score, issue_multiplier, avoid_list, works_list,
        cx5Flag, cx5Up]
      norm_num
  have hu : calculate_issue_compatibility cx5Unflag cx5Up.foot_issues = 1 := by
    rw [issue_compatibility_eq, if_neg (by simp [cx5Up]), min_eq_right ?hle]
    case hle =>
      simp [raw_issue_score, issue_multiplier, avoid_list, works_list,
        cx5Unflag, cx5Up]
      norm_num
  have hfs : calculate_match_score constC cx5Flag cx5Up [("issues", (1:ℚ))]
      = 1 := by
    rw [match_score_surviving constC cx5Flag cx5Up [("issues", (1:ℚ))] rfl
      one_ne_zero]
    unfold weighted_mean_over
    simp only [List.map_cons, List.map_nil, List.sum_cons, List.sum_nil,
      dictGetD_factor_scores_issues, hf]
    norm_num
  have hus : calculate_match_score constC cx5Unflag cx5Up [("issues", (1:ℚ))]
      = 1 := by
    rw [match_score_surviving constC cx5Unflag cx5Up [("issues", (1:ℚ))] rfl
      one_ne_zero]
    unfold weighted_mean_over
    simp only [List.map_cons, List.map_nil, List.sum_cons, List.sum_nil,
      dictGetD_factor_scores_issues, hu]
    norm_num
  have hrank : generate_ranking constC [cx5Flag, cx5Unflag] cx5Up
      [("issues", (1:ℚ))] = [(cx5Flag, 1), (cx5Unflag, 1)] := by
    unfold generate_ranking
    have hfilter : List.filter
        (fun s => decide (s.category = cx5Up.category
          ∧ constC.terrain s cx5Up ≠ 0)) [cx5Flag, cx5Unflag]
        = [cx5Flag, cx5Unflag] := by
      simp [cx5Flag, cx5Unflag, cx5Up, constC]
    rw [hfilter]
    simp only [List.map_cons, List.map_nil, hfs, hus]
    have hr : rank_le (cx5Flag, 1) (cx5Unflag, 1) :=
      Or.inr ⟨rfl, Or.inr ⟨rfl, by decide⟩⟩
    simp only [List.insertionSort, List.orderedInsert]
    rw [if_pos hr]
  refine ⟨by simp [cx5Up], by simp [avoid_list, cx5Flag],
    by simp [avoid_list, cx5Unflag], rfl, rfl, rfl, ?_, ?_⟩
  · intro p hp
    simp only [List.mem_singleton] at hp
    subst hp
    constructor <;> norm_num
  · rw [hrank]
    rfl

/-- C5 witness: the amended statement applied to a concrete two-product
ranking in which the flagged product's raw issue score (`0.1`) is below the
clamp — the unflagged product ranks first, the flagged one second. -/
theorem avoid_if_never_outranks_witness :
    (generate_ranking constC [cw5Flag, cw5Unflag] cw5Up
        [("issues", (1:ℚ))]).get? 0 = some (cw5Unflag, 1)
      ∧ (generate_ranking constC [cw5Flag, cw5Unflag] cw5Up
          [("issues", (1:ℚ))]).get? 1 = some (cw5Flag, 1/10)
      ∧ (0:ℕ) < 1 := by
  have hf : calculate_issue_compatibility cw5Flag cw5Up.foot_issues
      = 1/10 := by
    rw [issue_compatibility_eq, if_neg (by simp [cw5Up]), min_eq_left ?hle]
    case hle =>
      simp [raw_issue_score, issue_multiplier, avoid_list, works_list,
        cw5Flag, cw5Up]
      norm_num
    simp [raw_issue_score, issue_multiplier, avoid_list, works_list,
      cw5Flag, cw5Up]
  have hu : calculate_issue_compatibility cw5Unflag cw5Up.foot_issues
      = 1 := by
    rw [issue_compatibility_eq, if_neg (by simp [cw5Up]), min_eq_right ?hle]
    case hle =>
      simp [raw_issue_score, issue_multiplier, avoid_list, works_list,
        cw5Unflag, cw5Up]
  have hfs : calculate_match_score constC cw5Flag cw5Up [("issues", (1:ℚ))]
      = 1/10 := by
    rw [match_score_surviving constC cw5Flag cw5Up [("issues", (1:ℚ))] rfl
      one_ne_zero]
    unfold weighted_mean_over
    simp only [List.map_cons, List.map_nil, List.sum_cons, List.sum_nil,
      dictGetD_factor_scores_issues, hf]
    norm_num
  have hus : calculate_match_score constC cw5Unflag cw5Up [("issues", (1:ℚ))]
      = 1 := by
    rw [match_score_surviving constC cw5Unflag cw5Up [("issues", (1:ℚ))] rfl
      one_ne_zero]
    unfold weighted_mean_over
    simp only [List.map_cons, List.map_nil, List.sum_cons, List.sum_nil,
      dictGetD_factor_scores_issues, hu]
    norm_num
  have hnr : ¬ rank_le (cw5Flag, 1/10) (cw5Unflag, 1) := by
    unfold rank_le lexTriple rank_key
    norm_num
  have hrank : generate_ranking constC [cw5Flag, cw5Unflag] cw5Up
      [("issues", (1:ℚ))] = [(cw5Unflag, 1), (cw5Flag, 1/10)] := by
    unfold generate_ranking
    have hfilter : List.filter
        (fun s => decide (s.category = cw5Up.category
          ∧ constC.terrain s cw5Up ≠ 0)) [cw5Flag, cw5Unflag]
        = [cw5Flag, cw5Unflag] := by
      simp [cw5Flag, cw5Unflag, cw5Up, constC]
    rw [hfilter]
    simp only [List.map_cons, List.map_nil, hfs, hus]
    simp only [List.insertionSort, List.orderedInsert]
    rw [if_neg hnr]
  refine ⟨by rw [hrank]; rfl, by rw [hrank]; rfl, ?_⟩
  exact avoid_if_never_outranks_amended constC [cw5Flag, cw5Unflag] cw5Up
    [("issues", (1:ℚ))] cw5Flag cw5Unflag "c" (by decide) rfl rfl rfl rfl rfl
    rfl rfl rfl rfl rfl rfl rfl rfl (List.mem_singleton.mpr rfl)
    (List.mem_singleton.mpr rfl) (List.not_mem_nil _)
    (by intro x hx; simp [avoid_list, cw5Flag, cw5Unflag, hx])
    (by intro p hp
        simp only [List.mem_singleton] at hp
        subst hp
        constructor <;> norm_num)
    ⟨1, List.mem_singleton.mpr rfl⟩
    (by simp [raw_issue_score, issue_multiplier, avoid_list, works_list,
          cw5Flag, cw5Up]
        norm_num)
    1 0 (cw5Flag, 1/10) (cw5Unflag, 1) (by rw [hrank]; rfl)
    (by rw [hrank]; rfl) rfl rfl

end Stride
